import Mathlib

/-!
# Space Dystopia — verification of the combat / quest core

Shallow embedding of the combat and quest subsystem of the final checkpoint
(`src/checkpoint/checkpoint5.cpp`), together with the earlier combat loop of
`src/checkpoint/checkpoint3.cpp` where the two differ.  C++ `int` values are
modelled as `Int`; clamping (`std::max`/`std::min`) is explicit.  Console
output, random number generation and the `std::function` item effects are
I/O glue: random damage rolls and the player's menu choices enter the
embedding as explicit per-round input streams.
-/

namespace SpaceDystopia

/-- `Stat<int>` from checkpoint5.cpp lines 27-51: a named current/maximum
pair. -/
structure Stat where
  current : Int
  maximum : Int
  name : String
  deriving Repr, DecidableEq

/-- The `Stat(statName, initial)` constructor: both `current` and `maximum`
start at `initial`. -/
def Stat.init (statName : String) (initial : Int) : Stat :=
  { current := initial, maximum := initial, name := statName }

/-- `Stat::modify` (lines 42-45): `current = min(maximum, current + amount);
current = max(0, current)`. -/
def Stat.modify (s : Stat) (amount : Int) : Stat :=
  { s with current := max 0 (min s.maximum (s.current + amount)) }

/-- `QuestObjective<int>` (lines 102-123). -/
structure QuestObjective where
  description : String
  target : Int
  current : Int
  completed : Bool
  deriving Repr, DecidableEq

/-- The `QuestObjective(desc, targetValue)` constructor: `current = T() = 0`,
`completed = false`. -/
def QuestObjective.init (desc : String) (targetValue : Int) : QuestObjective :=
  { description := desc, target := targetValue, current := 0, completed := false }

/-- `QuestObjective::updateProgress` (lines 114-117): store the new value and
recompute `completed = (current >= target)`. -/
def QuestObjective.updateProgress (o : QuestObjective) (value : Int) : QuestObjective :=
  { o with current := value, completed := decide (value ≥ o.target) }

/-- `QuestObjective::isCompleted` returns the stored flag. -/
def QuestObjective.isCompleted (o : QuestObjective) : Bool := o.completed

/-- `Quest` (lines 125-155): named collection of objectives with a stored
`completed` flag. -/
structure Quest where
  name : String
  description : String
  objectives : List QuestObjective
  completed : Bool
  deriving Repr, DecidableEq

/-- The `Quest(n, desc)` constructor: no objectives, `completed = false`. -/
def Quest.init (n desc : String) : Quest :=
  { name := n, description := desc, objectives := [], completed := false }

/-- `Quest::addObjective`: push a fresh objective at the back. -/
def Quest.addObjective (q : Quest) (desc : String) (target : Int) : Quest :=
  { q with objectives := q.objectives ++ [QuestObjective.init desc target] }

/-- `Quest::checkCompletion` (private, lines 151-154):
`completed = all_of(objectives, isCompleted)`. -/
def Quest.checkCompletion (q : Quest) : Quest :=
  { q with completed := q.objectives.all QuestObjective.isCompleted }

/-- `Quest::updateObjective` (lines 140-145): only an in-range index updates
the objective and recomputes completion; otherwise nothing happens. -/
def Quest.updateObjective (q : Quest) (index : Nat) (value : Int) : Quest :=
  if index < q.objectives.length then
    Quest.checkCompletion { q with
      objectives := q.objectives.set index
        ((q.objectives.getD index (QuestObjective.init "" 0)).updateProgress value) }
  else q

/-- `Quest::isCompleted` returns the stored flag. -/
def Quest.isCompleted (q : Quest) : Bool := q.completed

/-- `CombatEntity` (lines 157-178): name + health/attack/defense triple. -/
structure CombatEntity where
  name : String
  health : Int
  attack : Int
  defense : Int
  deriving Repr, DecidableEq

/-- `CombatEntity::takeDamage` (lines 171-173):
`health = max(0, health - max(0, damage - defense))`. -/
def CombatEntity.takeDamage (e : CombatEntity) (damage : Int) : CombatEntity :=
  { e with health := max 0 (e.health - max 0 (damage - e.defense)) }

/-- `CombatEntity::isAlive`: `health > 0`. -/
def CombatEntity.isAlive (e : CombatEntity) : Bool := decide (e.health > 0)

/-- `CombatPlayer` (lines 180-219): a `CombatEntity` plus level, experience
and ability names.  The inherited fields sit in `base`. -/
structure CombatPlayer where
  base : CombatEntity
  level : Int
  experience : Int
  abilities : List String
  deriving Repr, DecidableEq

/-- The `CombatPlayer(n)` constructor: `CombatEntity(n, 100, 15, 5)`,
level 1, experience 0, two starting abilities. -/
def CombatPlayer.init (n : String) : CombatPlayer :=
  { base := { name := n, health := 100, attack := 15, defense := 5 }
    level := 1, experience := 0
    abilities := ["Quick Attack", "Defensive Stance"] }

/-- `CombatPlayer` inherits `takeDamage` unchanged from `CombatEntity`. -/
def CombatPlayer.takeDamage (p : CombatPlayer) (damage : Int) : CombatPlayer :=
  { p with base := p.base.takeDamage damage }

/-- `CombatPlayer` inherits `isAlive` from `CombatEntity`. -/
def CombatPlayer.isAlive (p : CombatPlayer) : Bool := p.base.isAlive

/-- `CombatPlayer::levelUp` (private, lines 208-218): level +1, health +10,
attack +5, defense +3, experience reset to 0. -/
def CombatPlayer.levelUp (p : CombatPlayer) : CombatPlayer :=
  { p with
    level := p.level + 1
    base := { p.base with
      health := p.base.health + 10
      attack := p.base.attack + 5
      defense := p.base.defense + 3 }
    experience := 0 }

/-- `CombatPlayer::gainExperience` (lines 200-205): accumulate, then level up
once if `experience >= level * 100`. -/
def CombatPlayer.gainExperience (p : CombatPlayer) (e : Int) : CombatPlayer :=
  let p' := { p with experience := p.experience + e }
  if p'.experience ≥ p'.level * 100 then p'.levelUp else p'

/-- `Enemy` (lines 221-245): a `CombatEntity` plus a type tag and drop-item
names. -/
structure Enemy where
  base : CombatEntity
  type : String
  dropItems : List String
  deriving Repr, DecidableEq

/-- The `Enemy(n, t, h, a, d)` constructor. -/
def Enemy.init (n t : String) (h a d : Int) : Enemy :=
  { base := { name := n, health := h, attack := a, defense := d }
    type := t, dropItems := [] }

/-- `Enemy` inherits `takeDamage` unchanged from `CombatEntity`. -/
def Enemy.takeDamage (e : Enemy) (damage : Int) : Enemy :=
  { e with base := e.base.takeDamage damage }

/-- `Item` (lines 277-315): the data fields of an item.  The
`std::function<void()>` use-effect closure is interaction glue dispatched by
the `Game` driver and carries no data of its own, so it is not represented. -/
structure Item where
  name : String
  description : String
  isUsable : Bool
  isPickable : Bool
  useDescription : String
  deriving Repr, DecidableEq

/-- `std::map<std::string, bool>` as an association list: `m[k] = v` updates
the binding of `k` in place or appends a fresh one. -/
def mapStore (m : List (String × Bool)) (k : String) (v : Bool) :
    List (String × Bool) :=
  match m with
  | [] => [(k, v)]
  | (k', v') :: rest =>
      if k' = k then (k, v) :: rest else (k', v') :: mapStore rest k v

/-- The overworld `Player` (lines 354-400), with the `Character` and
`GameObject` fields (lines 248-352) flattened in. -/
structure Player where
  name : String
  description : String
  health : Stat
  energy : Stat
  inventory : List Item
  experience : Int
  questFlags : List (String × Bool)
  totalSteps : Int
  itemsCollected : Int
  deriving Repr, DecidableEq

/-- The `Player(n)` constructor:
`Character(n, "A maintenance worker on Europa", 100, 100)`, everything else
zero/empty. -/
def Player.init (n : String) : Player :=
  { name := n, description := "A maintenance worker on Europa"
    health := Stat.init "Health" 100, energy := Stat.init "Energy" 100
    inventory := [], experience := 0, questFlags := []
    totalSteps := 0, itemsCollected := 0 }

/-- `Character::takeDamage` (lines 334-343): a negative argument throws,
the exception is caught in the same function and the state is left
unchanged; otherwise `health.modify(-damage)`. -/
def Player.takeDamage (p : Player) (damage : Int) : Player :=
  if damage < 0 then p else { p with health := p.health.modify (-damage) }

/-- `Character::addItem`: push into the inventory. -/
def Player.addItem (p : Player) (item : Item) : Player :=
  { p with inventory := p.inventory ++ [item] }

/-- `Player::incrementSteps`. -/
def Player.incrementSteps (p : Player) : Player :=
  { p with totalSteps := p.totalSteps + 1 }

/-- `Player::incrementItemsCollected`. -/
def Player.incrementItemsCollected (p : Player) : Player :=
  { p with itemsCollected := p.itemsCollected + 1 }

/-- `Player::gainExperience` (lines 386-391): only a positive amount is
added. -/
def Player.gainExperience (p : Player) (e : Int) : Player :=
  if e > 0 then { p with experience := p.experience + e } else p

/-- `Player::setQuestFlag` (lines 393-395): `questFlags[flag] = true`. -/
def Player.setQuestFlag (p : Player) (flag : String) : Player :=
  { p with questFlags := mapStore p.questFlags flag true }

/-- `Player::hasQuestFlag` (lines 397-399): `questFlags.count(flag) > 0`,
i.e. the key is present. -/
def Player.hasQuestFlag (p : Player) (flag : String) : Bool :=
  p.questFlags.any (fun kv => kv.1 = flag)

/-- The public mutating operations on the overworld player used by the game
driver of checkpoint5.cpp. -/
inductive PlayerOp where
  | setFlag (flag : String)
  | gainXP (amount : Int)
  | damage (amount : Int)
  | addItem (item : Item)
  | stepInc
  | itemInc
  deriving Repr, DecidableEq

/-- Dispatch one `PlayerOp` to the corresponding `Player` method. -/
def applyOp (p : Player) : PlayerOp → Player
  | PlayerOp.setFlag f => p.setQuestFlag f
  | PlayerOp.gainXP n => p.gainExperience n
  | PlayerOp.damage d => p.takeDamage d
  | PlayerOp.addItem it => p.addItem it
  | PlayerOp.stepInc => p.incrementSteps
  | PlayerOp.itemInc => p.incrementItemsCollected

/-- Run a sequence of player operations left to right. -/
def applyOps (p : Player) (ops : List PlayerOp) : Player :=
  ops.foldl applyOp p

/-!
## The combat encounter loop

`Game::handleCombat` of checkpoint5.cpp (lines 600-639) and of
checkpoint3.cpp (lines 573-607).  The random damage rolls
(`calculateDamage`, a uniform offset around `attack`) and the menu choice
read from `std::cin` are modelled as per-round input streams; the loop gets
explicit fuel and returns `none` when the fuel runs out before the `while`
guard fails.
-/

/-- Per-round external inputs of an encounter: the menu choice typed by the
player, the player combatant's damage roll and the enemy's damage roll for
round `k`. -/
structure CombatIO where
  choice : Nat → Int
  proll : Nat → Int
  eroll : Nat → Int

/-- The state mutated by `Game::handleCombat`: the transient combat proxy,
the enemy, and the overworld player. -/
structure CombatState where
  playerCombat : CombatPlayer
  enemy : CombatEntity
  player : Player
  deriving Repr, DecidableEq

/-- One iteration of the checkpoint5 `while` body (lines 605-638): the
player's damage (doubled by choice 2 when the inventory is non-empty) hits
the enemy; if the enemy dies, the overworld player gets the
`"security_defeated"` flag and 50 experience; then the enemy's roll hits the
proxy unconditionally — there is no `break` after the victory block. -/
def combatRound5 (io : CombatIO) (k : Nat) (st : CombatState) : CombatState :=
  let playerDamage :=
    if io.choice k = 2 ∧ 0 < st.player.inventory.length
    then io.proll k * 2 else io.proll k
  let enemy := st.enemy.takeDamage playerDamage
  let player :=
    if enemy.isAlive then st.player
    else (st.player.setQuestFlag "security_defeated").gainExperience 50
  { playerCombat := st.playerCombat.takeDamage (io.eroll k)
    enemy := enemy
    player := player }

/-- The checkpoint5 `while (enemy->isAlive() && playerCombat->isAlive())`
loop, with fuel.  `some st` is the state at a normal return of
`handleCombat`. -/
def combatLoop5 (io : CombatIO) : Nat → Nat → CombatState → Option CombatState
  | 0, _, st =>
      if st.enemy.isAlive && st.playerCombat.isAlive then none else some st
  | Nat.succ fuel, k, st =>
      if st.enemy.isAlive && st.playerCombat.isAlive then
        combatLoop5 io fuel (k + 1) (combatRound5 io k st)
      else some st

/-- `Game::handleCombat` of checkpoint5.cpp: build the transient
`CombatPlayer` proxy from the overworld player's name and run the loop. -/
def handleCombat5 (io : CombatIO) (fuel : Nat) (p : Player)
    (enemy : CombatEntity) : Option CombatState :=
  combatLoop5 io fuel 0
    { playerCombat := CombatPlayer.init p.name, enemy := enemy, player := p }

/-- One iteration of the checkpoint3 `while` body (lines 578-606):
`Sum.inr` is a `break` out of the loop, `Sum.inl` continues.  The victory
branch awards 25 experience and breaks before the enemy's turn; the loss
branch deals 50 damage to the overworld player and breaks. -/
def combatRound3 (io : CombatIO) (k : Nat) (st : CombatState) :
    Sum CombatState CombatState :=
  let enemy := st.enemy.takeDamage (io.proll k)
  if ¬ enemy.isAlive then
    Sum.inr { st with enemy := enemy, player := st.player.gainExperience 25 }
  else
    let pc := st.playerCombat.takeDamage (io.eroll k)
    if ¬ pc.isAlive then
      Sum.inr { playerCombat := pc, enemy := enemy
                player := st.player.takeDamage 50 }
    else
      Sum.inl { playerCombat := pc, enemy := enemy, player := st.player }

/-- The checkpoint3 combat loop, with fuel. -/
def combatLoop3 (io : CombatIO) : Nat → Nat → CombatState → Option CombatState
  | 0, _, st =>
      if st.enemy.isAlive && st.playerCombat.isAlive then none else some st
  | Nat.succ fuel, k, st =>
      if st.enemy.isAlive && st.playerCombat.isAlive then
        match combatRound3 io k st with
        | Sum.inr done => some done
        | Sum.inl st' => combatLoop3 io fuel (k + 1) st'
      else some st

/-- `Game::handleCombat` of checkpoint3.cpp. -/
def handleCombat3 (io : CombatIO) (fuel : Nat) (p : Player)
    (enemy : CombatEntity) : Option CombatState :=
  combatLoop3 io fuel 0
    { playerCombat := CombatPlayer.init p.name, enemy := enemy, player := p }

/-- The enemy's health at a normal return of a combat loop. -/
def finalEnemyHealth : Option CombatState → Option Int
  | some st => some st.enemy.health
  | none => none

/-- The combat proxy's health at a normal return of a combat loop. -/
def finalProxyHealth : Option CombatState → Option Int
  | some st => some st.playerCombat.base.health
  | none => none

/-- The overworld player's experience at a normal return of a combat loop. -/
def finalPlayerXP : Option CombatState → Option Int
  | some st => some st.player.experience
  | none => none

/-- Whether the overworld player holds a given quest flag at a normal return
of a combat loop. -/
def finalFlag (r : Option CombatState) (f : String) : Option Bool :=
  match r with
  | some st => some (st.player.hasQuestFlag f)
  | none => none

/-!
## Theorems
-/

/-- C2.  `CombatEntity::takeDamage` sets health to
`max(0, health - max(0, damage - defense))`: the result is never negative,
and (from a non-negative starting health) never larger than the starting
health; the concrete `Enemy("Security Bot", "Robot", 50, 10, 3)` hit for a
flat 8 ends at health 45. -/
theorem takeDamage_formula (e : CombatEntity) (d : Int) :
    (e.takeDamage d).health = max 0 (e.health - max 0 (d - e.defense)) ∧
    0 ≤ (e.takeDamage d).health ∧
    (0 ≤ e.health → (e.takeDamage d).health ≤ e.health) ∧
    ((Enemy.init "Security Bot" "Robot" 50 10 3).takeDamage 8).base.health = 45 := by
  refine ⟨rfl, le_max_left 0 _, fun h => ?_, by decide⟩
  simp only [CombatEntity.takeDamage, sup_eq_max]
  omega

/-- Witness for C2: the third conjunct's hypothesis discharged at the
spec's own scenario. -/
theorem takeDamage_formula_witness :
    (0 : Int) ≤ (Enemy.init "Security Bot" "Robot" 50 10 3).base.health ∧
    ((Enemy.init "Security Bot" "Robot" 50 10 3).base.takeDamage 8).health ≤
      (Enemy.init "Security Bot" "Robot" 50 10 3).base.health :=
  ⟨by decide,
    (takeDamage_formula (Enemy.init "Security Bot" "Robot" 50 10 3).base 8).2.2.1
      (by decide)⟩

/-- C5.  `Stat::modify` re-establishes `0 ≤ current ≤ maximum` from any
state satisfying it, for any amount, and leaves `maximum` unchanged. -/
theorem modify_preserves_invariant (s : Stat) (amount : Int)
    (h0 : 0 ≤ s.current) (h1 : s.current ≤ s.maximum) :
    0 ≤ (s.modify amount).current ∧
    (s.modify amount).current ≤ (s.modify amount).maximum ∧
    (s.modify amount).maximum = s.maximum := by
  refine ⟨le_max_left 0 _, ?_, rfl⟩
  simp only [Stat.modify, sup_eq_max, inf_eq_min]
  omega

/-- Witness for C5 at the player's starting health stat and a damaging
modification. -/
theorem modify_preserves_invariant_witness :
    (0 ≤ (Stat.init "Health" 100).current ∧
      (Stat.init "Health" 100).current ≤ (Stat.init "Health" 100).maximum) ∧
    (0 ≤ ((Stat.init "Health" 100).modify (-30)).current ∧
      ((Stat.init "Health" 100).modify (-30)).current ≤
        ((Stat.init "Health" 100).modify (-30)).maximum ∧
      ((Stat.init "Health" 100).modify (-30)).maximum =
        (Stat.init "Health" 100).maximum) :=
  ⟨⟨by decide, by decide⟩,
    modify_preserves_invariant (Stat.init "Health" 100) (-30) (by decide) (by decide)⟩

/-- Counterexample to C7 as stated: with a negative defense the two calls
differ.  `CombatEntity("Drone", 10, 5, -1)`: `takeDamage(-1)` leaves health
10 (the inner clamp gives `max(0, -1 - (-1)) = 0`), while
`takeDamage(max(-1,0)) = takeDamage(0)` deals `max(0, 0 - (-1)) = 1` and
leaves health 9. -/
theorem takeDamage_negative_counterexample :
    (⟨"Drone", 10, 5, -1⟩ : CombatEntity).takeDamage (-1) ≠
      (⟨"Drone", 10, 5, -1⟩ : CombatEntity).takeDamage (max (-1) 0) := by
  decide

/-- C7 (amended).  For every CombatEntity whose defense is non-negative —
as every entity constructed by the game is — `takeDamage d` equals
`takeDamage (max d 0)`: negative damage is a no-op. -/
theorem takeDamage_negative_noop (e : CombatEntity) (d : Int)
    (hdef : 0 ≤ e.defense) : e.takeDamage d = e.takeDamage (max d 0) := by
  simp only [CombatEntity.takeDamage, CombatEntity.mk.injEq, true_and,
    and_true, sup_eq_max]
  omega

/-- Witness for C7's amended theorem at the Security Bot's stats and a
negative damage argument. -/
theorem takeDamage_negative_noop_witness :
    (0 : Int) ≤ (⟨"Security Bot", 50, 10, 3⟩ : CombatEntity).defense ∧
    (⟨"Security Bot", 50, 10, 3⟩ : CombatEntity).takeDamage (-7) =
      (⟨"Security Bot", 50, 10, 3⟩ : CombatEntity).takeDamage (max (-7) 0) :=
  ⟨by decide, takeDamage_negative_noop ⟨"Security Bot", 50, 10, 3⟩ (-7) (by decide)⟩

/-- C10.  `Quest::updateObjective` with an out-of-range index returns
normally and leaves the quest unchanged. -/
theorem updateObjective_out_of_range (q : Quest) (i : Nat) (v : Int)
    (h : q.objectives.length ≤ i) : q.updateObjective i v = q := by
  unfold Quest.updateObjective
  rw [if_neg (by omega)]

/-- Witness for C10: a one-objective quest updated at index 5. -/
theorem updateObjective_out_of_range_witness :
    ((Quest.init "Escape Europa" "Escape").addObjective
        "Access classified data" 1).objectives.length ≤ 5 ∧
    ((Quest.init "Escape Europa" "Escape").addObjective
        "Access classified data" 1).updateObjective 5 1 =
      (Quest.init "Escape Europa" "Escape").addObjective
        "Access classified data" 1 :=
  ⟨by decide,
    updateObjective_out_of_range
      ((Quest.init "Escape Europa" "Escape").addObjective
        "Access classified data" 1) 5 1 (by decide)⟩

/-- C4.  `CombatPlayer::gainExperience` levels up exactly when the
accumulated experience reaches `level * 100`: level +1, health +10,
attack +5, defense +3, experience reset to 0; below the threshold only the
experience accumulates.  A fresh level-1 player gaining 150 XP in one call
ends at level 2 with experience 0, not 50. -/
theorem gainExperience_levelup (p : CombatPlayer) (e : Int) :
    (p.level * 100 ≤ p.experience + e →
      (p.gainExperience e).level = p.level + 1 ∧
      (p.gainExperience e).experience = 0 ∧
      (p.gainExperience e).base.health = p.base.health + 10 ∧
      (p.gainExperience e).base.attack = p.base.attack + 5 ∧
      (p.gainExperience e).base.defense = p.base.defense + 3) ∧
    (p.experience + e < p.level * 100 →
      p.gainExperience e = { p with experience := p.experience + e }) ∧
    ((CombatPlayer.init "n").gainExperience 150).level = 2 ∧
    ((CombatPlayer.init "n").gainExperience 150).experience = 0 := by
  refine ⟨fun h => ?_, fun h => ?_, by decide, by decide⟩
  · simp only [CombatPlayer.gainExperience, CombatPlayer.levelUp, ge_iff_le]
    rw [if_pos h]
    exact ⟨rfl, rfl, rfl, rfl, rfl⟩
  · simp only [CombatPlayer.gainExperience, ge_iff_le]
    rw [if_neg (by omega)]

/-- Witness for C4: both threshold directions discharged concretely — the
150-XP call levels up, a 99-XP call from the same fresh player only
accumulates. -/
theorem gainExperience_levelup_witness :
    ((CombatPlayer.init "n").level * 100 ≤ (CombatPlayer.init "n").experience + 150 ∧
      ((CombatPlayer.init "n").gainExperience 150).level = (CombatPlayer.init "n").level + 1 ∧
      ((CombatPlayer.init "n").gainExperience 150).experience = 0) ∧
    ((CombatPlayer.init "n").experience + 99 < (CombatPlayer.init "n").level * 100 ∧
      (CombatPlayer.init "n").gainExperience 99 =
        { CombatPlayer.init "n" with experience := (CombatPlayer.init "n").experience + 99 }) :=
  ⟨⟨by decide,
      ((gainExperience_levelup (CombatPlayer.init "n") 150).1 (by decide)).1,
      ((gainExperience_levelup (CombatPlayer.init "n") 150).1 (by decide)).2.1⟩,
    ⟨by decide, (gainExperience_levelup (CombatPlayer.init "n") 99).2.1 (by decide)⟩⟩

/-- All stored objective-completion flags agree with the recomputed
predicate, so `all_of isCompleted` is the AND of `current ≥ target`. -/
theorem all_isCompleted_congr (l : List QuestObjective)
    (hc : ∀ o ∈ l, o.completed = decide (o.target ≤ o.current)) :
    l.all QuestObjective.isCompleted =
      l.all (fun o => decide (o.target ≤ o.current)) := by
  induction l with
  | nil => rfl
  | cons o rest ih =>
      simp only [List.all_cons]
      rw [show QuestObjective.isCompleted o = o.completed from rfl,
        hc o (by simp), ih (fun o' ho' => hc o' (by simp [ho']))]

/-- Counterexample to C6 as stated: completing a one-objective quest, then
appending a second objective and calling `updateObjective` with an
out-of-range index leaves the stored `completed` flag `true` although the
AND over the objectives' `current ≥ target` is `false`. -/
def staleQuest : Quest :=
  ((((Quest.init "Escape Europa" "Find a way to escape and reveal the truth").addObjective
      "Access classified data" 1).updateObjective 0 1).addObjective
      "Bypass security" 1).updateObjective 5 0

/-- Counterexample theorem for C6: after the final `updateObjective` call on
`staleQuest`, `completed` is `true` but the AND over all objectives of
`current ≥ target` is `false`. -/
theorem updateObjective_completed_counterexample :
    staleQuest.completed = true ∧
    staleQuest.objectives.all (fun o => decide (o.target ≤ o.current)) = false := by
  decide

/-- C6 (amended).  For an in-range index, and on a quest whose stored
objective flags agree with `current ≥ target` (true of every quest built by
`addObjective` with positive targets and updated through the API),
`updateObjective` recomputes `completed` as the AND over all objectives of
`current ≥ target`, and the agreement is preserved — hence completion
persists under further in-range updates that keep all thresholds met. -/
theorem updateObjective_completed_AND (q : Quest) (i : Nat) (v : Int)
    (hi : i < q.objectives.length)
    (hc : ∀ o ∈ q.objectives, o.completed = decide (o.target ≤ o.current)) :
    (q.updateObjective i v).completed =
      (q.updateObjective i v).objectives.all
        (fun o => decide (o.target ≤ o.current)) ∧
    ∀ o ∈ (q.updateObjective i v).objectives,
      o.completed = decide (o.target ≤ o.current) := by
  have hobj : ∀ o ∈ q.objectives.set i
      ((q.objectives.getD i (QuestObjective.init "" 0)).updateProgress v),
      o.completed = decide (o.target ≤ o.current) := by
    intro o ho
    rcases List.mem_or_eq_of_mem_set ho with h | h
    · exact hc o h
    · subst h
      rfl
  unfold Quest.updateObjective
  rw [if_pos hi]
  exact ⟨all_isCompleted_congr _ hobj, hobj⟩

/-- Witness for C6's amended theorem: the game's main quest with its first
objective driven to its target. -/
theorem updateObjective_completed_AND_witness :
    (0 < ((Quest.init "Escape Europa" "Escape").addObjective
        "Access classified data" 1).objectives.length ∧
      (∀ o ∈ ((Quest.init "Escape Europa" "Escape").addObjective
        "Access classified data" 1).objectives,
        o.completed = decide (o.target ≤ o.current))) ∧
    (((Quest.init "Escape Europa" "Escape").addObjective
        "Access classified data" 1).updateObjective 0 1).completed =
      (((Quest.init "Escape Europa" "Escape").addObjective
        "Access classified data" 1).updateObjective 0 1).objectives.all
        (fun o => decide (o.target ≤ o.current)) :=
  ⟨⟨by decide, by decide⟩,
    (updateObjective_completed_AND
      ((Quest.init "Escape Europa" "Escape").addObjective
        "Access classified data" 1) 0 1 (by decide) (by decide)).1⟩

/-- Storing a binding in the flag map preserves the presence of every key:
presence after the store is presence of the stored key or prior presence. -/
theorem mapStore_any_key (m : List (String × Bool)) (k f : String) (v : Bool) :
    ((mapStore m k v).any fun kv => decide (kv.1 = f)) =
      (decide (k = f) || m.any fun kv => decide (kv.1 = f)) := by
  induction m with
  | nil => simp [mapStore]
  | cons hd rest ih =>
      by_cases hk : hd.1 = k
      · simp only [mapStore, if_pos hk, List.any_cons, hk]
        cases hdec : decide (k = f) <;> simp [hdec]
      · simp only [mapStore, if_neg hk, List.any_cons, ih]
        cases hdec : decide (k = f) <;> cases hdec2 : decide (hd.1 = f) <;>
          simp [hdec, hdec2]

/-- A single player operation never clears a quest flag. -/
theorem applyOp_flag_monotone (p : Player) (f : String) (op : PlayerOp)
    (h : p.hasQuestFlag f = true) : (applyOp p op).hasQuestFlag f = true := by
  cases op with
  | setFlag g =>
      simp only [applyOp, Player.setQuestFlag, Player.hasQuestFlag] at h ⊢
      rw [mapStore_any_key, h, Bool.or_true]
  | gainXP n =>
      simp only [applyOp, Player.gainExperience] at h ⊢
      split <;> exact h
  | damage d =>
      simp only [applyOp, Player.takeDamage] at h ⊢
      split <;> exact h
  | addItem it => exact h
  | stepInc => exact h
  | itemInc => exact h

/-- C8.  Quest flags are a monotone one-way set: once `setQuestFlag f` has
been called, `hasQuestFlag f` stays `true` after any further sequence of
player operations — no operation clears a flag. -/
theorem questFlag_monotone (p : Player) (f : String) (ops : List PlayerOp)
    (h : p.hasQuestFlag f = true) : (applyOps p ops).hasQuestFlag f = true := by
  induction ops generalizing p with
  | nil => exact h
  | cons op rest ih => exact ih (applyOp p op) (applyOp_flag_monotone p f op h)

/-- Witness for C8: set `"terminal_hacked"`, then run a mixed sequence of
operations (including setting other flags); the flag is still present. -/
theorem questFlag_monotone_witness :
    ((Player.init "Ada").setQuestFlag "terminal_hacked").hasQuestFlag
      "terminal_hacked" = true ∧
    (applyOps ((Player.init "Ada").setQuestFlag "terminal_hacked")
      [PlayerOp.gainXP 20, PlayerOp.damage 50,
       PlayerOp.setFlag "security_defeated", PlayerOp.stepInc,
       PlayerOp.setFlag "spacesuit_equipped", PlayerOp.itemInc,
       PlayerOp.damage (-3)]).hasQuestFlag "terminal_hacked" = true :=
  ⟨by decide,
    questFlag_monotone ((Player.init "Ada").setQuestFlag "terminal_hacked")
      "terminal_hacked"
      [PlayerOp.gainXP 20, PlayerOp.damage 50,
       PlayerOp.setFlag "security_defeated", PlayerOp.stepInc,
       PlayerOp.setFlag "spacesuit_equipped", PlayerOp.itemInc,
       PlayerOp.damage (-3)] (by decide)⟩

/-- A state at which the checkpoint5 loop guard fails has a dead combatant
on one side. -/
theorem guard_false_dead (st : CombatState)
    (hg : (st.enemy.isAlive && st.playerCombat.isAlive) ≠ true) :
    st.enemy.health ≤ 0 ∨ st.playerCombat.base.health ≤ 0 := by
  simp only [CombatEntity.isAlive, CombatPlayer.isAlive, ne_eq,
    Bool.and_eq_true, decide_eq_true_eq, not_and_or, not_lt] at hg
  omega

/-- Inputs driving the final checkpoint's combat against an overpowering
enemy: always choose the basic attack, always roll the proxy's base attack
of 15, while the enemy rolls 200. -/
def cexInput : CombatIO :=
  { choice := fun _ => 1, proll := fun _ => 15, eroll := fun _ => 200 }

/-- An enemy strong enough to survive the encounter in checkpoint5: the
proxy's rolls never pierce its defense. -/
def strongEnemy : CombatEntity :=
  { name := "Overclocked Guard Bot", health := 1000, attack := 200, defense := 50 }

/-- Counterexample to C1 as stated: against `strongEnemy`,
`handleCombat` of checkpoint5 returns normally (the `while` guard also
tests the proxy's liveness), yet the enemy's health is 1000, not 0. -/
theorem handleCombat5_returns_with_live_enemy :
    (handleCombat5 cexInput 5 (Player.init "Ada") strongEnemy).isSome = true ∧
    finalEnemyHealth (handleCombat5 cexInput 5 (Player.init "Ada") strongEnemy) =
      some 1000 ∧
    finalEnemyHealth (handleCombat5 cexInput 5 (Player.init "Ada") strongEnemy) ≠
      some 0 := by
  decide

/-- C1 (amended).  The checkpoint5 combat loop terminates exactly when a
combatant dies: whenever it returns, the enemy's health is ≤ 0 or the
player proxy's health is ≤ 0.  The loss-handling branch of checkpoint3
(escape message and overworld penalty) is absent, but the `while` guard
still provides a player-loss exit. -/
theorem combatLoop5_exit (io : CombatIO) (fuel k : Nat) (st st' : CombatState)
    (h : combatLoop5 io fuel k st = some st') :
    st'.enemy.health ≤ 0 ∨ st'.playerCombat.base.health ≤ 0 := by
  induction fuel generalizing k st with
  | zero =>
      unfold combatLoop5 at h
      by_cases hg : (st.enemy.isAlive && st.playerCombat.isAlive) = true
      · rw [if_pos hg] at h
        exact absurd h (by simp)
      · rw [if_neg hg] at h
        injection h with h
        subst h
        exact guard_false_dead st hg
  | succ n ih =>
      unfold combatLoop5 at h
      by_cases hg : (st.enemy.isAlive && st.playerCombat.isAlive) = true
      · rw [if_pos hg] at h
        exact ih (k + 1) (combatRound5 io k st) h
      · rw [if_neg hg] at h
        injection h with h
        subst h
        exact guard_false_dead st hg

/-- The initial combat state of the counterexample run. -/
def cexStart : CombatState :=
  { playerCombat := CombatPlayer.init "Ada", enemy := strongEnemy
    player := Player.init "Ada" }

/-- The state the counterexample run returns with. -/
def cexFinal : CombatState := (combatLoop5 cexInput 5 0 cexStart).getD cexStart

/-- Witness for C1's amended theorem: the concrete run returns, and at its
final state one combatant is indeed dead (here the proxy). -/
theorem combatLoop5_exit_witness :
    combatLoop5 cexInput 5 0 cexStart = some cexFinal ∧
    (cexFinal.enemy.health ≤ 0 ∨ cexFinal.playerCombat.base.health ≤ 0) :=
  ⟨by decide, combatLoop5_exit cexInput 5 0 cexStart cexFinal (by decide)⟩

/-- Inputs for a winning round: basic attack, proxy roll 15, enemy roll 10. -/
def winInput : CombatIO :=
  { choice := fun _ => 1, proll := fun _ => 15, eroll := fun _ => 10 }

/-- A weak enemy that the first blow kills. -/
def weakEnemy : CombatEntity :=
  { name := "Security Bot", health := 5, attack := 10, defense := 0 }

/-- The checkpoint5 encounter against `weakEnemy`. -/
def winRun5 : Option CombatState := handleCombat5 winInput 3 (Player.init "Ada") weakEnemy

/-- The checkpoint3 encounter against `weakEnemy` with the same inputs. -/
def winRun3 : Option CombatState := handleCombat3 winInput 3 (Player.init "Ada") weakEnemy

/-- C3 at its failing input: in checkpoint5 the winning round sets the
`"security_defeated"` flag and awards 50 experience, but the slain enemy
still retaliates — the proxy ends the round at 95 health, not 100, because
no `break` follows the victory block; under the same inputs the checkpoint3
loop `break`s and the proxy keeps its full 100 health. -/
theorem victory_round_retaliation :
    finalEnemyHealth winRun5 = some 0 ∧
    finalFlag winRun5 "security_defeated" = some true ∧
    finalPlayerXP winRun5 = some 50 ∧
    finalProxyHealth winRun5 = some 95 ∧
    finalEnemyHealth winRun3 = some 0 ∧
    finalProxyHealth winRun3 = some 100 := by
  decide

/-- C9.  In a checkpoint5 round, choice 2 with the EMP device in the
overworld inventory applies double the proxy's damage roll to the enemy;
the basic attack (choice 1) applies the single roll. -/
theorem emp_doubles_damage (io : CombatIO) (k : Nat) (st : CombatState) :
    (io.choice k = 2 → (∃ it ∈ st.player.inventory, it.name = "EMP Device") →
      (combatRound5 io k st).enemy = st.enemy.takeDamage (io.proll k * 2)) ∧
    (io.choice k = 1 →
      (combatRound5 io k st).enemy = st.enemy.takeDamage (io.proll k)) := by
  constructor
  · rintro h2 ⟨it, hmem, -⟩
    have hlen : 0 < st.player.inventory.length :=
      List.length_pos.mpr (List.ne_nil_of_mem hmem)
    simp only [combatRound5]
    rw [if_pos ⟨h2, hlen⟩]
  · intro h1
    simp only [combatRound5]
    rw [if_neg (by rintro ⟨hc, -⟩; omega)]

/-- The EMP item as constructed by `initializeLocations`:
`Item("EMP Device", "Can disable security systems", true)`. -/
def empItem : Item :=
  { name := "EMP Device", description := "Can disable security systems"
    isUsable := true, isPickable := true
    useDescription := "No specific use instructions." }

/-- A combat state in which the player has picked up the EMP device. -/
def empState : CombatState :=
  { playerCombat := CombatPlayer.init "Ada"
    enemy := { name := "Security Bot", health := 50, attack := 10, defense := 3 }
    player := (Player.init "Ada").addItem empItem }

/-- Inputs choosing the EMP option with a roll of 13. -/
def empInput : CombatIO :=
  { choice := fun _ => 2, proll := fun _ => 13, eroll := fun _ => 10 }

/-- Witness for C9: with the EMP in the inventory and choice 2, the round
deals `13 * 2` to the enemy. -/
theorem emp_doubles_damage_witness :
    empInput.choice 0 = 2 ∧
    (∃ it ∈ empState.player.inventory, it.name = "EMP Device") ∧
    (combatRound5 empInput 0 empState).enemy =
      empState.enemy.takeDamage (empInput.proll 0 * 2) :=
  ⟨rfl, by decide, (emp_doubles_damage empInput 0 empState).1 rfl (by decide)⟩

end SpaceDystopia
